import Mathlib

/-!
Shallow embedding of the youtube-clipper job orchestrator.

JS strings are modelled as lists of character codes (`List Nat`); the byte
sequences fed to the hash are the UTF-8 bytes, which coincide with the code
points for the ASCII data handled here.  Machine integers are `Nat`/`Int`
with explicit `% 2^32` where the SHA-256 rounds require 32-bit wrap-around.
Filesystem and registry state is explicit (`World`), and the express route
handlers and process-lifecycle callbacks are state-passing functions.
-/

/-- Character-code list of a string literal; models a JS string value. -/
def str (s : String) : List Nat := s.data.map Char.toNat

/-- Decimal digit codes of a natural number, with explicit fuel so the
definition is structurally recursive and kernel-evaluable. -/
def natDigitsAux (fuel n : Nat) : List Nat :=
  match fuel with
  | 0 => []
  | f + 1 => if n < 10 then [48 + n] else natDigitsAux f (n / 10) ++ [48 + n % 10]

/-- Decimal rendering of a `Nat`, as character codes. -/
def natStr (n : Nat) : List Nat := natDigitsAux (n + 1) n

/-- Decimal rendering of an `Int` (JS number-to-string for integers). -/
def intStr (i : Int) : List Nat :=
  if i < 0 then 45 :: natStr i.natAbs else natStr i.natAbs

/-- Truncation to 32 bits. -/
def w32 (n : Nat) : Nat := n % 4294967296

/-- Right rotation of a 32-bit word. -/
def rotr (n x : Nat) : Nat := w32 ((x >>> n) ||| (x <<< (32 - n)))

/-- SHA-256 Ch function. -/
def shaCh (x y z : Nat) : Nat := (x &&& y) ^^^ ((x ^^^ 4294967295) &&& z)

/-- SHA-256 Maj function. -/
def shaMaj (x y z : Nat) : Nat := (x &&& y) ^^^ (x &&& z) ^^^ (y &&& z)

/-- SHA-256 big sigma 0. -/
def bigSigma0 (x : Nat) : Nat := rotr 2 x ^^^ rotr 13 x ^^^ rotr 22 x

/-- SHA-256 big sigma 1. -/
def bigSigma1 (x : Nat) : Nat := rotr 6 x ^^^ rotr 11 x ^^^ rotr 25 x

/-- SHA-256 small sigma 0. -/
def smallSigma0 (x : Nat) : Nat := rotr 7 x ^^^ rotr 18 x ^^^ (x >>> 3)

/-- SHA-256 small sigma 1. -/
def smallSigma1 (x : Nat) : Nat := rotr 17 x ^^^ rotr 19 x ^^^ (x >>> 10)

/-- SHA-256 round constants. -/
def K256 : List Nat :=
  [1116352408, 1899447441, 3049323471, 3921009573,
   961987163, 1508970993, 2453635748, 2870763221,
   3624381080, 310598401, 607225278, 1426881987,
   1925078388, 2162078206, 2614888103, 3248222580,
   3835390401, 4022224774, 264347078, 604807628,
   770255983, 1249150122, 1555081692, 1996064986,
   2554220882, 2821834349, 2952996808, 3210313671,
   3336571891, 3584528711, 113926993, 338241895,
   666307205, 773529912, 1294757372, 1396182291,
   1695183700, 1986661051, 2177026350, 2456956037,
   2730485921, 2820302411, 3259730800, 3345764771,
   3516065817, 3600352804, 4094571909, 275423344,
   430227734, 506948616, 659060556, 883997877,
   958139571, 1322822218, 1537002063, 1747873779,
   1955562222, 2024104815, 2227730452, 2361852424,
   2428436474, 2756734187, 3204031479, 3329325298]

/-- SHA-256 initial hash state. -/
def H256 : List Nat :=
  [0x6a09e667, 0xbb67ae85, 0x3c6ef372, 0xa54ff53a, 0x510e527f, 0x9b05688c, 0x1f83d9ab, 0x5be0cd19]

/-- Big-endian byte rendering of a number on `k` bytes. -/
def natBytesBE (k n : Nat) : List Nat :=
  match k with
  | 0 => []
  | k + 1 => natBytesBE k (n / 256) ++ [n % 256]

/-- SHA-256 message padding: append 0x80, zeros, and the 64-bit bit length. -/
def padBytes (msg : List Nat) : List Nat :=
  let L := msg.length
  let k := (64 - (L + 9) % 64) % 64
  msg ++ [128] ++ List.replicate k 0 ++ natBytesBE 8 (L * 8)

/-- Split a byte list into 64-byte blocks (fuel-structural). -/
def toBlocks (fuel : Nat) (l : List Nat) : List (List Nat) :=
  match fuel with
  | 0 => []
  | f + 1 =>
    match l with
    | [] => []
    | x :: xs => (x :: xs).take 64 :: toBlocks f ((x :: xs).drop 64)

/-- Combine bytes into big-endian 32-bit words. -/
def bytesToWords : List Nat → List Nat
  | a :: b :: c :: d :: rest => (a * 16777216 + b * 65536 + c * 256 + d) :: bytesToWords rest
  | _ => []

/-- One extension step of the SHA-256 message schedule. -/
def scheduleStep (w : List Nat) : List Nat :=
  let n := w.length
  w ++ [w32 (smallSigma1 (w.getD (n - 2) 0) + w.getD (n - 7) 0 +
             smallSigma0 (w.getD (n - 15) 0) + w.getD (n - 16) 0)]

/-- Extend the message schedule `k` times. -/
def buildW (k : Nat) (w : List Nat) : List Nat :=
  match k with
  | 0 => w
  | k + 1 => buildW k (scheduleStep w)

/-- One SHA-256 compression round; the running state is `[a,b,c,d,e,f,g,h]`. -/
def compressRound (st : List Nat) (kw : Nat × Nat) : List Nat :=
  let a := st.getD 0 0
  let b := st.getD 1 0
  let c := st.getD 2 0
  let d := st.getD 3 0
  let e := st.getD 4 0
  let f := st.getD 5 0
  let g := st.getD 6 0
  let h := st.getD 7 0
  let t1 := w32 (h + bigSigma1 e + shaCh e f g + kw.1 + kw.2)
  let t2 := w32 (bigSigma0 a + shaMaj a b c)
  [w32 (t1 + t2), a, b, c, w32 (d + t1), e, f, g]

/-- Compress one 64-byte block into the hash state. -/
def compressBlock (h : List Nat) (block : List Nat) : List Nat :=
  let w := buildW 48 (bytesToWords block)
  let s := (K256.zip w).foldl compressRound h
  (h.zip s).map (fun p => w32 (p.1 + p.2))

/-- Big-endian bytes of one 32-bit word. -/
def wordBytesBE (w : Nat) : List Nat :=
  [(w >>> 24) % 256, (w >>> 16) % 256, (w >>> 8) % 256, w % 256]

/-- SHA-256 digest (32 bytes) of a byte list. -/
def sha256bytes (msg : List Nat) : List Nat :=
  let hs := (toBlocks (msg.length + 65) (padBytes msg)).foldl compressBlock H256
  hs.foldr (fun w acc => wordBytesBE w ++ acc) []

/-- Lowercase hex digit code for a nibble. -/
def hexDigitCode (n : Nat) : Nat := if n < 10 then 48 + n else 87 + n

/-- Two lowercase hex digit codes of a byte. -/
def byteHex (b : Nat) : List Nat := [hexDigitCode (b / 16 % 16), hexDigitCode (b % 16)]

/-- Lowercase hex rendering of a byte list. -/
def hexConcat (bs : List Nat) : List Nat := bs.foldr (fun b acc => byteHex b ++ acc) []

/-- Node `crypto.createHash('sha256').update(m).digest('hex')`. -/
def sha256hex (msg : List Nat) : List Nat := hexConcat (sha256bytes msg)

/-- Code is an ASCII letter or digit; the character class of the source regex
/[^a-z0-9]/gi (case-insensitive, so a-z, A-Z, 0-9). -/
def AlnumCode (c : Nat) : Prop :=
  (48 ≤ c ∧ c ≤ 57) ∨ (65 ≤ c ∧ c ≤ 90) ∨ (97 ≤ c ∧ c ≤ 122)

instance (c : Nat) : Decidable (AlnumCode c) := by
  unfold AlnumCode
  infer_instance

/-- One character of `url.replace(/[^a-z0-9]/gi, '_')`. -/
def sanitizeCode (c : Nat) : Nat := if AlnumCode c then c else 95

/-- ASCII lowering; `toLowerCase` restricted to the post-replace alphabet
[a-zA-Z0-9_], on which JS `toLowerCase` only maps A-Z to a-z. -/
def lowerCode (c : Nat) : Nat := if 65 ≤ c ∧ c ≤ 90 then c + 32 else c

/-- Embeds `(url || 'clip').replace(/[^a-z0-9]/gi, '_').toLowerCase()` from
getClipIdAndPath (src/unnamed/part_005 line 33). -/
def titleSafe (url : List Nat) : List Nat :=
  ((if url = [] then str ("clip") else url).map sanitizeCode).map lowerCode

/-- Result record of getClipIdAndPath: `{ clipId, outputPath, filename, ext }`. -/
structure ClipPath where
  clipId : List Nat
  outputPath : List Nat
  filename : List Nat
  ext : List Nat
deriving DecidableEq

/-- Hash input string of the fingerprint (part_005 line 30); 124 is the pipe. -/
def fpInput (url : List Nat) (startS endS : Int) (quality : List Nat) : List Nat :=
  url ++ [124] ++ intStr startS ++ [124] ++ intStr endS ++ [124] ++ quality

/-- Embeds getClipIdAndPath (src/unnamed/part_005 lines 27-37): sha256 hex of
url|start|end|quality truncated to 12 chars, sanitized-lowercased url as the
name stem, extension m4a for quality 'audio' and mp4 otherwise, output path
joined under the configured temp directory (passed here as `tempDir`; 46 is
the dot, 47 the path separator inserted by path.join). -/
def getClipIdAndPath (tempDir url : List Nat) (startS endS : Int) (quality : List Nat) : ClipPath :=
  let hash := (sha256hex (fpInput url startS endS quality)).take 12
  let ts := titleSafe url
  let ext := if quality = str ("audio") then str ("m4a") else str ("mp4")
  let stem := ts ++ (str ("_clip_") ++ hash)
  let filename := stem ++ (46 :: ext)
  ⟨hash, tempDir ++ (47 :: filename), filename, ext⟩

/-- C2: fingerprint determinism: for every (url, start, end, quality) with
start < end, computing the fingerprint twice yields identical ids and output
paths (pure function), the 'audio' quality maps to the audio extension m4a,
and every other quality maps to mp4. -/
theorem clip_fingerprint_deterministic (tempDir url : List Nat) (startS endS : Int)
    (quality : List Nat) (h : startS < endS) :
    getClipIdAndPath tempDir url startS endS quality
      = getClipIdAndPath tempDir url startS endS quality
    ∧ (quality = str ("audio") →
        (getClipIdAndPath tempDir url startS endS quality).ext = str ("m4a"))
    ∧ (quality ≠ str ("audio") →
        (getClipIdAndPath tempDir url startS endS quality).ext = str ("mp4")) := by
  refine ⟨rfl, ?_, ?_⟩ <;> intro hq <;> simp [getClipIdAndPath, hq]

/-- Witness for C2 at the spec example fingerprint("srcXYZ", 10, 40, "best"). -/
theorem clip_fingerprint_deterministic_witness :
    (10 : Int) < 40
    ∧ getClipIdAndPath (str ("temp")) (str ("srcXYZ")) 10 40 (str ("best"))
        = getClipIdAndPath (str ("temp")) (str ("srcXYZ")) 10 40 (str ("best"))
    ∧ (getClipIdAndPath (str ("temp")) (str ("srcXYZ")) 10 40 (str ("best"))).ext
        = str ("mp4") :=
  ⟨by decide,
   (clip_fingerprint_deterministic (str ("temp")) (str ("srcXYZ")) 10 40 (str ("best"))
     (by decide)).1,
   (clip_fingerprint_deterministic (str ("temp")) (str ("srcXYZ")) 10 40 (str ("best"))
     (by decide)).2.2 (by decide)⟩

/-- Lookup in an association list keyed by character-code lists; models both
`Map.get`/`Map.has` and (for the file system) `fs.existsSync`/`fs.statSync`. -/
def lookA {V : Type} (k : List Nat) : List (List Nat × V) → Option V
  | [] => none
  | p :: rest => if p.1 = k then some p.2 else lookA k rest

/-- Remove a key; models `Map.delete` and `fs.unlinkSync`. -/
def removeA {V : Type} (k : List Nat) : List (List Nat × V) → List (List Nat × V)
  | [] => []
  | p :: rest => if p.1 = k then removeA k rest else p :: removeA k rest

/-- Set a key; models `Map.set` and `fs.writeFileSync`. -/
def setA {V : Type} (k : List Nat) (v : V) (l : List (List Nat × V)) : List (List Nat × V) :=
  (k, v) :: removeA k l

/-- File metadata; the slice of `fs.statSync` the orchestrator reads. -/
structure FileStat where
  size : Nat
  mtimeMs : Nat
deriving DecidableEq

/-- A ClipJob entry of `state.activeClips` (src/unnamed/part_006 line 12);
`hasProc` is the nullable `proc` handle collapsed to its truthiness. -/
structure ClipEntry where
  hasProc : Bool
  outputPath : List Nat
  percent : Nat
  message : List Nat
  background : Bool
  filename : List Nat
  ready : Bool
  stderrTail : List Nat
deriving DecidableEq

/-- Mutable state touched by the clip endpoints: the file system and the log
files beside artifacts, the activeClips registry, the global currentProgress,
and spawn instrumentation (`spawned` counts worker processes launched,
`spawnHistory` records each argument vector passed to `spawn('yt-dlp', ...)`). -/
structure World where
  fsys : List (List Nat × FileStat)
  logs : List (List Nat × List Nat)
  activeClips : List (List Nat × ClipEntry)
  progressPercent : Nat
  progressMessage : List Nat
  spawned : Nat
  spawnHistory : List (List (List Nat))
deriving DecidableEq

/-- QUALITY_FORMAT_MAP from src/config (src/src/websocket.js lines 46-55). -/
def QUALITY_FORMAT_MAP : List (List Nat × List Nat) :=
  [(str ("best"), str ("bestvideo[ext=mp4]+bestaudio[ext=m4a]/best[ext=mp4]/best")),
   (str ("2160"), str ("bestvideo[height<=2160]+bestaudio/best")),
   (str ("1440"), str ("bestvideo[height<=1440]+bestaudio/best")),
   (str ("1080"), str ("bestvideo[height<=1080]+bestaudio/best")),
   (str ("720"), str ("bestvideo[height<=720]+bestaudio/best")),
   (str ("480"), str ("bestvideo[height<=480]+bestaudio/best")),
   (str ("360"), str ("bestvideo[height<=360]+bestaudio/best")),
   (str ("audio"), str ("bestaudio[ext=m4a]/bestaudio"))]

/-- Lookup `config.QUALITY_FORMAT_MAP[quality] || config.QUALITY_FORMAT_MAP['best']`. -/
def qualityFormat (q : List Nat) : List Nat :=
  match lookA q QUALITY_FORMAT_MAP with
  | some f => f
  | none => str ("bestvideo[ext=mp4]+bestaudio[ext=m4a]/best[ext=mp4]/best")

/-- The yt-dlp argument vector built in downloadClip (part_002 lines 62-81). -/
def ytDlpClipArgs (chosenFormat : List Nat) (startS endS : Int) (outputPath url : List Nat) :
    List (List Nat) :=
  [str ("-f"), chosenFormat,
   str ("--download-sections"), str ("*") ++ intStr startS ++ str ("-") ++ intStr endS,
   str ("--force-keyframes-at-cuts"),
   str ("--retries"), str ("15"),
   str ("--fragment-retries"), str ("20"),
   str ("--retry-sleep"), str ("3"),
   str ("--file-access-retries"), str ("5"),
   str ("--continue"),
   str ("--no-overwrites"),
   str ("--concurrent-fragments"), str ("3"),
   str ("--throttled-rate"), str ("100K"),
   str ("--merge-output-format"), str ("mp4"),
   str ("--progress"),
   str ("--newline"),
   str ("--progress-template"), str ("%(progress._percent_str)s %(progress.speed)s"),
   str ("-o"), outputPath,
   url]

/-- Embeds the synchronous prefix of clipService.downloadClip (part_002 lines
19-93): fingerprint/path resolution, the stale-file check (delete only when
older than 24h with no active clip for the id AND smaller than 1024 bytes,
lines 34-59), argument construction, `spawn` (counted in `spawned` /
`spawnHistory`; `detached`, `unref` and the stream plumbing are process
bookkeeping with no orchestrator state), and registration in activeClips
(line 88).  Progress parsing, the stall timer and the close handler are
separate events; the close handler is embedded below as `onClipClose`.
86400000 ms = 1440 minutes = 24 h. -/
def downloadClip (w : World) (now : Nat) (tempDir url : List Nat) (startS endS : Int)
    (quality : List Nat) (background : Bool) : World × List (List Nat) :=
  let cp := getClipIdAndPath tempDir url startS endS quality
  let w1 :=
    match lookA cp.outputPath w.fsys with
    | some st =>
      if now - st.mtimeMs > 86400000 ∧ (lookA cp.clipId w.activeClips).isNone ∧ st.size < 1024
      then { w with fsys := removeA cp.outputPath w.fsys }
      else w
    | none => w
  let args := ytDlpClipArgs (qualityFormat quality) startS endS cp.outputPath url
  let entry : ClipEntry :=
    ⟨true, cp.outputPath, 0, str ("Starting"), background, cp.filename, false, []⟩
  ({ w1 with
      spawned := w1.spawned + 1,
      spawnHistory := w1.spawnHistory ++ [args],
      activeClips := setA cp.clipId entry w1.activeClips }, args)

/-- Verdict record of validateResumable; the float `sizeMB` report is carried
exactly as `sizeBytes`. -/
structure ResumeVerdict where
  resumable : Bool
  reason : List Nat
  sizeBytes : Nat
deriving DecidableEq

/-- Embeds validateResumable (src/unnamed/part_005 lines 150-170).  The float
comparisons are expressed exactly at byte/millisecond granularity:
`sizeMB < 1` iff `size < 1048576`, and `ageMinutes > 1440` iff
`now - mtimeMs > 86400000`. -/
def validateResumable (fsys : List (List Nat × FileStat)) (now : Nat) (filePath : List Nat) :
    ResumeVerdict :=
  match lookA filePath fsys with
  | none => ⟨false, str ("File does not exist"), 0⟩
  | some st =>
    if st.size < 1024 then ⟨false, str ("File too small (corrupted)"), st.size⟩
    else if now - st.mtimeMs > 86400000 ∧ st.size < 1048576 then
      ⟨false, str ("Stale and undersized"), st.size⟩
    else ⟨true, str ("Valid partial download"), st.size⟩

/-- C5: resume validator classification: an existing file below 1024 bytes is
not resumable with the too-small reason; one older than 24 hours and below
1 MB is not resumable with the stale-and-undersized reason; any other
existing file is resumable. -/
theorem validateResumable_classification (fsys : List (List Nat × FileStat)) (now : Nat)
    (p : List Nat) (st : FileStat) (h : lookA p fsys = some st) :
    (st.size < 1024 →
      (validateResumable fsys now p).resumable = false
      ∧ (validateResumable fsys now p).reason = str ("File too small (corrupted)"))
    ∧ (1024 ≤ st.size → now - st.mtimeMs > 86400000 → st.size < 1048576 →
      (validateResumable fsys now p).resumable = false
      ∧ (validateResumable fsys now p).reason = str ("Stale and undersized"))
    ∧ (1024 ≤ st.size → ¬(now - st.mtimeMs > 86400000 ∧ st.size < 1048576) →
      (validateResumable fsys now p).resumable = true) := by
  unfold validateResumable
  rw [h]
  dsimp only
  refine ⟨fun hs => ?_, fun hs hage hmb => ?_, fun hs hnot => ?_⟩
  · rw [if_pos hs]
    exact ⟨rfl, rfl⟩
  · rw [if_neg (by omega), if_pos ⟨hage, hmb⟩]
    exact ⟨rfl, rfl⟩
  · rw [if_neg (by omega), if_neg hnot]

/-- Witness for C5 at the spec examples: a 900-byte file aged 2 minutes is
rejected as too small, and a 50 MB file aged 2 minutes is resumable
(now = 120000 ms, mtime 0). -/
theorem validateResumable_classification_witness :
    ((900 : Nat) < 1024
      ∧ (validateResumable [(str ("f"), ⟨900, 0⟩)] 120000 (str ("f"))).resumable = false
      ∧ (validateResumable [(str ("f"), ⟨900, 0⟩)] 120000 (str ("f"))).reason
          = str ("File too small (corrupted)"))
    ∧ ((validateResumable [(str ("g"), ⟨52428800, 0⟩)] 120000 (str ("g"))).resumable = true) :=
  ⟨⟨by decide,
    (validateResumable_classification [(str ("f"), ⟨900, 0⟩)] 120000 (str ("f")) ⟨900, 0⟩
      (by decide)).1 (by decide)⟩,
   (validateResumable_classification [(str ("g"), ⟨52428800, 0⟩)] 120000 (str ("g")) ⟨52428800, 0⟩
      (by decide)).2.2 (by decide) (by decide)⟩

/-- List-of-codes version of `String.startsWith` on the tail positions used by
`hasSubL`. -/
def startsWithL : List Nat → List Nat → Bool
  | [], _ => true
  | _ :: _, [] => false
  | a :: as, b :: bs => a == b && startsWithL as bs

/-- JS `hay.includes(needle)`: the needle occurs contiguously in the hay. -/
def hasSubL (needle : List Nat) : List Nat → Bool
  | [] => startsWithL needle []
  | b :: bs => startsWithL needle (b :: bs) || hasSubL needle bs

/-- The slice of fetchVideoInfo's result read by the clip start route. -/
structure VideoInfo where
  title : List Nat
  durationSeconds : Int
  isLiveContent : Bool
deriving DecidableEq

/-- Responses of POST /api/clip (transport payloads collapsed to their shape). -/
inductive StartResponse
  | badRequest (msg : List Nat)
  | startedBg (id filename : List Nat)
  | foreground (outputPath ext : List Nat)
deriving DecidableEq

/-- Embeds router.post '/' of clipRoutes.js (lines 22-155).  External
collaborators enter as data: `urlValid` is `ytdl.validateURL(url)` and `info`
the resolved metadata (the route awaits fetchVideoInfo after range
validation; its failure path is not modelled since every claim about this
route concerns the validation prefix or the spawn).  The progress reset of
line 67, request-timeout tuning, and the foreground streaming tail after the
downloadClip call (waitForFile, fallback search, res.download and its
delete-on-success callback) are transport details collapsed into the
response constructors. -/
def startRoute (w : World) (now : Nat) (tempDir : List Nat) (urlValid : Bool) (url : List Nat)
    (startS endS : Int) (info : VideoInfo) (background : Bool) (quality : List Nat) :
    World × StartResponse :=
  if urlValid = false then (w, .badRequest (str ("Invalid YouTube URL")))
  else if startS ≥ endS then (w, .badRequest (str ("Start time must be before end time")))
  else if startS < 0 ∨ endS < 0 then (w, .badRequest (str ("Times must be positive")))
  else if info.isLiveContent then
    (w, .badRequest (str ("Video appears to be a live stream.")))
  else if endS > info.durationSeconds then
    (w, .badRequest (str ("End time exceeds video duration")))
  else
    let cp := getClipIdAndPath tempDir url startS endS quality
    let w0 := { w with progressPercent := 0, progressMessage := str ("Starting") }
    let r := downloadClip w0 now tempDir url startS endS quality background
    if background then (r.1, .startedBg cp.clipId cp.filename)
    else (r.1, .foreground cp.outputPath cp.ext)

/-- Responses of POST /api/clip/resume. -/
inductive ResumeResponse
  | inProgress (id : List Nat) (percent : Nat) (message : List Nat)
  | ready (id filename : List Nat) (sizeBytes : Nat)
  | downloadComplete (outputPath filename : List Nat)
  | started (id filename action : List Nat)
  | downloadResult (outputPath filename : List Nat)
deriving DecidableEq

/-- Embeds the spawn tail of the resume route (clipRoutes.js lines 227-255):
the Resuming/Starting action is recomputed from file existence after any
deletion, line 231 always launches a background downloadClip (fire and
forget), and a foreground request launches a second downloadClip and streams
its result (the await/collapse of that stream is a transport detail). -/
def resumeSpawn (w : World) (now : Nat) (tempDir url : List Nat) (startS endS : Int)
    (quality : List Nat) (background : Bool) (cp : ClipPath) : World × ResumeResponse :=
  let action := if (lookA cp.outputPath w.fsys).isSome then str ("resuming") else str ("starting")
  let r1 := downloadClip w now tempDir url startS endS quality true
  if background then (r1.1, .started cp.clipId cp.filename action)
  else
    let r2 := downloadClip r1.1 now tempDir url startS endS quality false
    (r2.1, .downloadResult cp.outputPath cp.filename)

/-- Embeds the artifact inspection of the resume route (clipRoutes.js lines
200-225): for an existing file, a path without the '.part' marker is reported
complete (ready when background, res.download otherwise); a partial failing
validateResumable is unlinked; a valid partial is left alone; then the job is
started. -/
def resumeCore (w : World) (now : Nat) (tempDir url : List Nat) (startS endS : Int)
    (quality : List Nat) (background : Bool) (cp : ClipPath) : World × ResumeResponse :=
  match lookA cp.outputPath w.fsys with
  | some _ =>
    if hasSubL (str (".part")) cp.outputPath = false then
      if background then
        (w, .ready cp.clipId cp.filename (validateResumable w.fsys now cp.outputPath).sizeBytes)
      else (w, .downloadComplete cp.outputPath cp.filename)
    else
      resumeSpawn
        (if (validateResumable w.fsys now cp.outputPath).resumable = false
         then { w with fsys := removeA cp.outputPath w.fsys } else w)
        now tempDir url startS endS quality background cp
  | none => resumeSpawn w now tempDir url startS endS quality background cp

/-- Embeds router.post '/resume' of clipRoutes.js (lines 182-260): an active
clip with a live process short-circuits to its current percent/message (line
195-198); otherwise the artifact inspection and spawn logic of `resumeCore`
runs. -/
def resumeRoute (w : World) (now : Nat) (tempDir url : List Nat) (startS endS : Int)
    (quality : List Nat) (background : Bool) : World × ResumeResponse :=
  let cp := getClipIdAndPath tempDir url startS endS quality
  match lookA cp.clipId w.activeClips with
  | some clip =>
    if clip.hasProc then (w, .inProgress cp.clipId clip.percent clip.message)
    else resumeCore w now tempDir url startS endS quality background cp
  | none => resumeCore w now tempDir url startS endS quality background cp

/-- C8: a start request whose converted seconds satisfy start ≥ end or carry a
negative bound is rejected with an HTTP 400 validation error before any
worker is spawned: the returned world is untouched (no spawn counted, no
activeClips entry, no file or progress mutation). -/
theorem start_invalid_range_rejected (w : World) (now : Nat) (tempDir : List Nat)
    (urlValid : Bool) (url : List Nat) (startS endS : Int) (info : VideoInfo)
    (background : Bool) (quality : List Nat)
    (h : startS ≥ endS ∨ startS < 0 ∨ endS < 0) :
    (startRoute w now tempDir urlValid url startS endS info background quality).1 = w
    ∧ ∃ m, (startRoute w now tempDir urlValid url startS endS info background quality).2
        = StartResponse.badRequest m := by
  unfold startRoute
  rcases Bool.eq_false_or_eq_true urlValid with hu | hu
  · rw [if_neg (by simp [hu])]
    by_cases hge : startS ≥ endS
    · rw [if_pos hge]
      exact ⟨rfl, _, rfl⟩
    · rw [if_neg hge, if_pos (by omega)]
      exact ⟨rfl, _, rfl⟩
  · rw [if_pos hu]
    exact ⟨rfl, _, rfl⟩

/-- Witness for C8 at start=5, end=3. -/
theorem start_invalid_range_rejected_witness :
    ((5 : Int) ≥ 3 ∨ (5 : Int) < 0 ∨ (3 : Int) < 0)
    ∧ (startRoute ⟨[], [], [], 0, str ("Idle"), 0, []⟩ 0 (str ("temp")) true (str ("u")) 5 3
        ⟨str ("t"), 100, false⟩ true (str ("best"))).1 = ⟨[], [], [], 0, str ("Idle"), 0, []⟩
    ∧ ∃ m, (startRoute ⟨[], [], [], 0, str ("Idle"), 0, []⟩ 0 (str ("temp")) true (str ("u")) 5 3
        ⟨str ("t"), 100, false⟩ true (str ("best"))).2 = StartResponse.badRequest m :=
  ⟨Or.inl (by decide),
   (start_invalid_range_rejected ⟨[], [], [], 0, str ("Idle"), 0, []⟩ 0 (str ("temp")) true
      (str ("u")) 5 3 ⟨str ("t"), 100, false⟩ true (str ("best")) (Or.inl (by decide))).1,
   (start_invalid_range_rejected ⟨[], [], [], 0, str ("Idle"), 0, []⟩ 0 (str ("temp")) true
      (str ("u")) 5 3 ⟨str ("t"), 100, false⟩ true (str ("best")) (Or.inl (by decide))).2⟩

set_option maxRecDepth 4000000

/-- Example temp directory for concrete evaluations. -/
def exTempDir : List Nat := str ("temp")

/-- Example source url. -/
def exUrl : List Nat := str ("u")

/-- Example quality selector. -/
def exQuality : List Nat := str ("best")

/-- Fingerprint and paths of the example job (url "u", range [0,1), best). -/
def exCP : ClipPath := getClipIdAndPath exTempDir exUrl 0 1 exQuality

/-- An activeClips entry whose worker process is alive. -/
def exActiveEntry : ClipEntry :=
  ⟨true, exCP.outputPath, 37, str ("Downloading"), true, exCP.filename, false, []⟩

/-- A world in which the example fingerprint has an active worker. -/
def exWactive : World := ⟨[], [], [(exCP.clipId, exActiveEntry)], 0, str ("Idle"), 0, []⟩

/-- Example resolved video metadata. -/
def exInfo : VideoInfo := ⟨str ("t"), 100, false⟩

/-- C1 counterexample: with an active worker process registered for the
example fingerprint, a start request (POST /api/clip) for the same
(url, start, end, quality) still spawns a new worker process — the start
route never consults activeClips, so the single-flight guarantee fails for
`start` as claimed. -/
theorem start_spawns_despite_active_cex :
    lookA exCP.clipId exWactive.activeClips = some exActiveEntry
    ∧ exActiveEntry.hasProc = true
    ∧ (startRoute exWactive 0 exTempDir true exUrl 0 1 exInfo true exQuality).1.spawned
        = exWactive.spawned + 1 := by
  decide

/-- C1 (amended): only the `resume` route is single-flight: a resume request
for a fingerprint whose activeClips entry has a live process spawns nothing,
changes no state, and reports the existing job's current percent and
message; a `start` request does not consult the registry and spawns a second
worker process unconditionally. -/
theorem resume_attaches_to_active_job (w : World) (now : Nat) (tempDir url : List Nat)
    (startS endS : Int) (quality : List Nat) (background : Bool) (clip : ClipEntry)
    (h : lookA (getClipIdAndPath tempDir url startS endS quality).clipId w.activeClips
          = some clip)
    (hp : clip.hasProc = true) :
    resumeRoute w now tempDir url startS endS quality background
      = (w, ResumeResponse.inProgress (getClipIdAndPath tempDir url startS endS quality).clipId
          clip.percent clip.message) := by
  unfold resumeRoute
  simp only [h, hp, if_true]

/-- Witness for the amended C1 at the example world. -/
theorem resume_attaches_to_active_job_witness :
    lookA exCP.clipId exWactive.activeClips = some exActiveEntry
    ∧ exActiveEntry.hasProc = true
    ∧ resumeRoute exWactive 0 exTempDir exUrl 0 1 exQuality true
        = (exWactive, ResumeResponse.inProgress
            (getClipIdAndPath exTempDir exUrl 0 1 exQuality).clipId
            exActiveEntry.percent exActiveEntry.message) :=
  ⟨by decide, by decide,
   resume_attaches_to_active_job exWactive 0 exTempDir exUrl 0 1 exQuality true exActiveEntry
     (by decide) (by decide)⟩

/-- Stat of a large, fresh, complete example artifact. -/
def exStat : FileStat := ⟨5000000, 0⟩

/-- A world holding a complete artifact at the example output path and no
active clip. -/
def exWfile : World := ⟨[(exCP.outputPath, exStat)], [], [], 0, str ("Idle"), 0, []⟩

/-- C4 counterexample: with a complete (non-partial) artifact already at the
deterministic output path, a start request (POST /api/clip) neither reports
ready nor skips the spawn: it launches a worker and answers `started` — the
complete-artifact short-circuit exists only on the resume route. -/
theorem start_ignores_complete_artifact_cex :
    lookA exCP.outputPath exWfile.fsys = some exStat
    ∧ hasSubL (str (".part")) exCP.outputPath = false
    ∧ (startRoute exWfile 0 exTempDir true exUrl 0 1 exInfo true exQuality).1.spawned
        = exWfile.spawned + 1
    ∧ (startRoute exWfile 0 exTempDir true exUrl 0 1 exInfo true exQuality).2
        = StartResponse.startedBg exCP.clipId exCP.filename := by
  decide

/-- A resume request finding a file at the deterministic path whose path has
no '.part' marker reports it complete immediately: ready payload, world
untouched, no spawn (helper shared by the amended C4 and by C10). -/
theorem resumeRoute_complete_ready (w : World) (now : Nat) (tempDir url : List Nat)
    (startS endS : Int) (quality : List Nat) (st : FileStat)
    (hact : lookA (getClipIdAndPath tempDir url startS endS quality).clipId w.activeClips
          = none)
    (hfile : lookA (getClipIdAndPath tempDir url startS endS quality).outputPath w.fsys
          = some st)
    (hnp : hasSubL (str (".part")) (getClipIdAndPath tempDir url startS endS quality).outputPath
          = false) :
    resumeRoute w now tempDir url startS endS quality true
      = (w, ResumeResponse.ready (getClipIdAndPath tempDir url startS endS quality).clipId
          (getClipIdAndPath tempDir url startS endS quality).filename
          (validateResumable w.fsys now
            (getClipIdAndPath tempDir url startS endS quality).outputPath).sizeBytes) := by
  unfold resumeRoute resumeCore
  simp only [hact, hfile, hnp, if_true]

/-- C4 (amended): the complete-artifact short-circuit holds for the `resume`
route: a resume request whose deterministic output path holds a complete
(non-partial) artifact returns an immediate ready response, spawns no worker
and leaves all state untouched; the `start` route performs no such check and
spawns regardless (counterexample above). -/
theorem resume_ready_on_complete_artifact (w : World) (now : Nat) (tempDir url : List Nat)
    (startS endS : Int) (quality : List Nat) (st : FileStat)
    (hact : lookA (getClipIdAndPath tempDir url startS endS quality).clipId w.activeClips
          = none)
    (hfile : lookA (getClipIdAndPath tempDir url startS endS quality).outputPath w.fsys
          = some st)
    (hnp : hasSubL (str (".part")) (getClipIdAndPath tempDir url startS endS quality).outputPath
          = false) :
    resumeRoute w now tempDir url startS endS quality true
      = (w, ResumeResponse.ready (getClipIdAndPath tempDir url startS endS quality).clipId
          (getClipIdAndPath tempDir url startS endS quality).filename
          (validateResumable w.fsys now
            (getClipIdAndPath tempDir url startS endS quality).outputPath).sizeBytes) :=
  resumeRoute_complete_ready w now tempDir url startS endS quality st hact hfile hnp

/-- Witness for the amended C4 at the example world with a complete artifact. -/
theorem resume_ready_on_complete_artifact_witness :
    lookA exCP.clipId exWfile.activeClips = none
    ∧ lookA exCP.outputPath exWfile.fsys = some exStat
    ∧ hasSubL (str (".part")) exCP.outputPath = false
    ∧ resumeRoute exWfile 0 exTempDir exUrl 0 1 exQuality true
        = (exWfile, ResumeResponse.ready
            (getClipIdAndPath exTempDir exUrl 0 1 exQuality).clipId
            (getClipIdAndPath exTempDir exUrl 0 1 exQuality).filename
            (validateResumable exWfile.fsys 0
              (getClipIdAndPath exTempDir exUrl 0 1 exQuality).outputPath).sizeBytes) :=
  ⟨by decide, by decide, by decide,
   resume_ready_on_complete_artifact exWfile 0 exTempDir exUrl 0 1 exQuality exStat
     (by decide) (by decide) (by decide)⟩

/-- A character code of the sanitized filename alphabet: a-z, 0-9 or '_'. -/
def SafeCode (c : Nat) : Prop := (97 ≤ c ∧ c ≤ 122) ∨ (48 ≤ c ∧ c ≤ 57) ∨ c = 95

instance (c : Nat) : Decidable (SafeCode c) := by
  unfold SafeCode
  infer_instance

/-- Sanitizing then lowering any character lands in the safe alphabet. -/
theorem safeCode_lower_sanitize (c : Nat) : SafeCode (lowerCode (sanitizeCode c)) := by
  unfold lowerCode sanitizeCode AlnumCode SafeCode
  split_ifs <;> omega

/-- Every character of the sanitized url stem is safe. -/
theorem safeCode_titleSafe (url : List Nat) : ∀ c ∈ titleSafe url, SafeCode c := by
  intro c hc
  unfold titleSafe at hc
  rcases List.mem_map.1 hc with ⟨b, hb, rfl⟩
  rcases List.mem_map.1 hb with ⟨a, _, rfl⟩
  exact safeCode_lower_sanitize a

/-- Hex digits of nibbles are safe (lowercase hex is inside a-z0-9). -/
theorem safeCode_hexDigit (n : Nat) (h : n < 16) : SafeCode (hexDigitCode n) := by
  unfold hexDigitCode SafeCode
  split_ifs <;> omega

/-- Every character of a hex rendering is safe. -/
theorem safeCode_hexConcat (bs : List Nat) : ∀ c ∈ hexConcat bs, SafeCode c := by
  induction bs with
  | nil =>
    intro c hc
    simp [hexConcat] at hc
  | cons b rest ih =>
    intro c hc
    unfold hexConcat at hc ih
    simp only [List.foldr_cons] at hc
    rcases List.mem_append.1 hc with h1 | h2
    · unfold byteHex at h1
      rcases List.mem_cons.1 h1 with rfl | h1
      · exact safeCode_hexDigit _ (Nat.mod_lt _ (by omega))
      · rcases List.mem_cons.1 h1 with rfl | h1
        · exact safeCode_hexDigit _ (Nat.mod_lt _ (by omega))
        · simp at h1
    · exact ih c h2

/-- Every character of the truncated sha256 clip id is safe. -/
theorem safeCode_clipId (tempDir url : List Nat) (startS endS : Int) (quality : List Nat) :
    ∀ c ∈ (getClipIdAndPath tempDir url startS endS quality).clipId, SafeCode c := by
  intro c hc
  unfold getClipIdAndPath at hc
  dsimp only at hc
  exact safeCode_hexConcat _ c (List.take_subset 12 _ hc)

/-- Every character of the literal '_clip_' marker is safe. -/
theorem safeCode_clipLit : ∀ c ∈ str ("_clip_"), SafeCode c := by decide

/-- Every character of the filename stem (sanitized url, literal marker,
hash) is safe. -/
theorem safeCode_stem (tempDir url : List Nat) (startS endS : Int) (quality : List Nat) :
    ∀ c ∈ titleSafe url ++ (str ("_clip_")
        ++ (getClipIdAndPath tempDir url startS endS quality).clipId), SafeCode c := by
  intro c hc
  rcases List.mem_append.1 hc with h1 | h2
  · exact safeCode_titleSafe url c h1
  · rcases List.mem_append.1 h2 with h3 | h4
    · exact safeCode_clipLit c h3
    · exact safeCode_clipId tempDir url startS endS quality c h4

/-- The needle of `startsWithL` ignores everything after a character absent
from it. -/
theorem startsWithL_append_cons : ∀ (n : List Nat) (c : Nat) (l r : List Nat), c ∉ n →
    startsWithL n (l ++ c :: r) = startsWithL n l := by
  intro n
  induction n with
  | nil =>
    intro c l r _
    rfl
  | cons a as ih =>
    intro c l r hc
    cases l with
    | nil =>
      simp only [List.nil_append, startsWithL]
      have hac : (a == c) = false := by
        have : a ≠ c := fun h => hc (by simp [h])
        simpa using this
      simp [hac]
    | cons b bs =>
      simp only [List.cons_append, startsWithL, List.append_eq]
      rw [ih c bs r (fun hm => hc (List.mem_cons_of_mem a hm))]

/-- Occurrences of a needle that lacks a separator character split across it. -/
theorem hasSubL_append_cons : ∀ (l n : List Nat) (c : Nat) (r : List Nat), c ∉ n →
    hasSubL n (l ++ c :: r) = (hasSubL n l || hasSubL n r) := by
  intro l
  induction l with
  | nil =>
    intro n c r hc
    simp only [List.nil_append, hasSubL]
    have h := startsWithL_append_cons n c [] r hc
    simp only [List.nil_append] at h
    rw [h]
  | cons x xs ih =>
    intro n c r hc
    simp only [List.cons_append, hasSubL, List.append_eq]
    have h := startsWithL_append_cons n c (x :: xs) r hc
    simp only [List.cons_append] at h
    rw [h, ih n c r hc, Bool.or_assoc]

/-- Occurrence of a dot-led needle after a dot-free stem reduces to the
suffix after the dot. -/
theorem hasSubL_dot (m : List Nat) : ∀ (p e : List Nat), (∀ c ∈ p, c ≠ 46) →
    hasSubL (46 :: m) (p ++ 46 :: e) = (startsWithL m e || hasSubL (46 :: m) e) := by
  intro p
  induction p with
  | nil =>
    intro e _
    simp [hasSubL, startsWithL]
  | cons x xs ih =>
    intro e hp
    have hx : (46 == x) = false := by
      have : x ≠ 46 := hp x (List.mem_cons_self x xs)
      simp
      omega
    simp only [List.cons_append, hasSubL, startsWithL, hx, Bool.false_and, Bool.false_or]
    exact ih e (fun c hcm => hp c (List.mem_cons_of_mem x hcm))

/-- A filename made of a safe stem, one dot, and extension m4a or mp4 never
contains '.part'. -/
theorem hasSubL_part_stem_ext (stem ext : List Nat) (hs : ∀ c ∈ stem, SafeCode c)
    (he : ext = str ("m4a") ∨ ext = str ("mp4")) :
    hasSubL (str (".part")) (stem ++ (46 :: ext)) = false := by
  have h46 : ∀ c ∈ stem, c ≠ 46 := by
    intro c hc
    have := hs c hc
    unfold SafeCode at this
    omega
  have hsplit : str (".part") = 46 :: str ("part") := by decide
  rw [hsplit, hasSubL_dot (str ("part")) stem ext h46]
  rcases he with he | he <;> subst he <;> decide

/-- Joining a '.part'-free directory and a '.part'-free filename with the
path separator yields a '.part'-free path. -/
theorem hasSubL_part_path (tempDir fname : List Nat)
    (htd : hasSubL (str (".part")) tempDir = false)
    (hf : hasSubL (str (".part")) fname = false) :
    hasSubL (str (".part")) (tempDir ++ (47 :: fname)) = false := by
  rw [hasSubL_append_cons tempDir (str (".part")) 47 fname (by decide), htd, hf]
  rfl

/-- C10: the basename produced by getClipIdAndPath is a safe stem
([a-z0-9_]) followed by exactly one dot and the m4a/mp4 extension, hence it
never contains '.part'; if the configured temp directory is also
'.part'-free the full output path is '.part'-free, so on the resume route
any existing file at the deterministic path passes the completeness test and
is answered as ready — the partial-deletion branch is unreachable for such
paths. -/
theorem output_path_no_part_marker (w : World) (now : Nat) (tempDir url : List Nat)
    (startS endS : Int) (quality : List Nat) (st : FileStat)
    (htd : hasSubL (str (".part")) tempDir = false)
    (hact : lookA (getClipIdAndPath tempDir url startS endS quality).clipId w.activeClips
          = none)
    (hfile : lookA (getClipIdAndPath tempDir url startS endS quality).outputPath w.fsys
          = some st) :
    (∀ c ∈ titleSafe url ++ (str ("_clip_")
        ++ (getClipIdAndPath tempDir url startS endS quality).clipId), SafeCode c)
    ∧ ((getClipIdAndPath tempDir url startS endS quality).ext = str ("m4a")
        ∨ (getClipIdAndPath tempDir url startS endS quality).ext = str ("mp4"))
    ∧ (getClipIdAndPath tempDir url startS endS quality).filename
        = (titleSafe url ++ (str ("_clip_")
            ++ (getClipIdAndPath tempDir url startS endS quality).clipId))
          ++ (46 :: (getClipIdAndPath tempDir url startS endS quality).ext)
    ∧ hasSubL (str (".part")) (getClipIdAndPath tempDir url startS endS quality).filename
        = false
    ∧ hasSubL (str (".part")) (getClipIdAndPath tempDir url startS endS quality).outputPath
        = false
    ∧ resumeRoute w now tempDir url startS endS quality true
        = (w, ResumeResponse.ready (getClipIdAndPath tempDir url startS endS quality).clipId
            (getClipIdAndPath tempDir url startS endS quality).filename
            (validateResumable w.fsys now
              (getClipIdAndPath tempDir url startS endS quality).outputPath).sizeBytes) := by
  have hstem := safeCode_stem tempDir url startS endS quality
  have hext : (getClipIdAndPath tempDir url startS endS quality).ext = str ("m4a")
      ∨ (getClipIdAndPath tempDir url startS endS quality).ext = str ("mp4") := by
    unfold getClipIdAndPath
    dsimp only
    by_cases hq : quality = str ("audio")
    · exact Or.inl (by rw [if_pos hq])
    · exact Or.inr (by rw [if_neg hq])
  have hshape : (getClipIdAndPath tempDir url startS endS quality).filename
      = (titleSafe url ++ (str ("_clip_")
          ++ (getClipIdAndPath tempDir url startS endS quality).clipId))
        ++ (46 :: (getClipIdAndPath tempDir url startS endS quality).ext) := by
    unfold getClipIdAndPath
    dsimp only
  have hfn : hasSubL (str (".part"))
      (getClipIdAndPath tempDir url startS endS quality).filename = false := by
    rw [hshape]
    exact hasSubL_part_stem_ext _ _ hstem hext
  have hpathShape : (getClipIdAndPath tempDir url startS endS quality).outputPath
      = tempDir ++ (47 :: (getClipIdAndPath tempDir url startS endS quality).filename) := by
    unfold getClipIdAndPath
    dsimp only
  have hpath : hasSubL (str (".part"))
      (getClipIdAndPath tempDir url startS endS quality).outputPath = false := by
    rw [hpathShape]
    exact hasSubL_part_path tempDir _ htd hfn
  exact ⟨hstem, hext, hshape, hfn, hpath,
    resumeRoute_complete_ready w now tempDir url startS endS quality st hact hfile hpath⟩

/-- Witness for C10 at the example world: the temp dir is '.part'-free, the
example path is '.part'-free, and the resume route reports ready. -/
theorem output_path_no_part_marker_witness :
    hasSubL (str (".part")) exTempDir = false
    ∧ hasSubL (str (".part")) (getClipIdAndPath exTempDir exUrl 0 1 exQuality).outputPath
        = false :=
  ⟨by decide,
   (output_path_no_part_marker exWfile 0 exTempDir exUrl 0 1 exQuality exStat (by decide)
      (by decide) (by decide)).2.2.2.2.1⟩

/-- Deleting a key makes its lookup fail. -/
theorem lookA_removeA_self {V : Type} (k : List Nat) (l : List (List Nat × V)) :
    lookA k (removeA k l) = none := by
  induction l with
  | nil => rfl
  | cons p rest ih =>
    unfold removeA
    by_cases h : p.1 = k
    · rw [if_pos h]
      exact ih
    · rw [if_neg h]
      unfold lookA
      rw [if_neg h]
      exact ih

/-- A resumable verdict for an existing file implies the size is at least the
1024-byte corruption threshold. -/
theorem resumable_size_ge (fsys : List (List Nat × FileStat)) (now : Nat) (p : List Nat)
    (st : FileStat) (h : lookA p fsys = some st)
    (hr : (validateResumable fsys now p).resumable = true) : 1024 ≤ st.size := by
  unfold validateResumable at hr
  rw [h] at hr
  dsimp only at hr
  by_cases hs : st.size < 1024
  · rw [if_pos hs] at hr
    simp at hr
  · omega

/-- World with the file at `p` unlinked (abbreviation for statements). -/
def unlinkAt (w : World) (p : List Nat) : World := { w with fsys := removeA p w.fsys }

/-- When the artifact at the deterministic path is absent, downloadClip only
spawns and registers: the file system is untouched. -/
theorem downloadClip_none (w : World) (now : Nat) (tempDir url : List Nat) (startS endS : Int)
    (quality : List Nat) (bg : Bool)
    (hnone : lookA (getClipIdAndPath tempDir url startS endS quality).outputPath w.fsys
        = none) :
    (downloadClip w now tempDir url startS endS quality bg).1.fsys = w.fsys
    ∧ (downloadClip w now tempDir url startS endS quality bg).1.spawned = w.spawned + 1
    ∧ (downloadClip w now tempDir url startS endS quality bg).1.spawnHistory
        = w.spawnHistory ++ [ytDlpClipArgs (qualityFormat quality) startS endS
            (getClipIdAndPath tempDir url startS endS quality).outputPath url] := by
  unfold downloadClip
  simp only [hnone]
  refine ⟨?_, ?_, ?_⟩ <;> trivial

/-- When the stale-deletion guard does not fire, downloadClip leaves the file
system untouched and only spawns and registers. -/
theorem downloadClip_keep (w : World) (now : Nat) (tempDir url : List Nat) (startS endS : Int)
    (quality : List Nat) (bg : Bool) (st : FileStat)
    (hfile : lookA (getClipIdAndPath tempDir url startS endS quality).outputPath w.fsys
        = some st)
    (hkeep : ¬(now - st.mtimeMs > 86400000
        ∧ (lookA (getClipIdAndPath tempDir url startS endS quality).clipId w.activeClips).isNone
            = true
        ∧ st.size < 1024)) :
    (downloadClip w now tempDir url startS endS quality bg).1.fsys = w.fsys
    ∧ (downloadClip w now tempDir url startS endS quality bg).1.spawned = w.spawned + 1
    ∧ (downloadClip w now tempDir url startS endS quality bg).1.spawnHistory
        = w.spawnHistory ++ [ytDlpClipArgs (qualityFormat quality) startS endS
            (getClipIdAndPath tempDir url startS endS quality).outputPath url] := by
  unfold downloadClip
  simp only [hfile, if_neg hkeep]
  refine ⟨?_, ?_, ?_⟩ <;> trivial

/-- The world reached through resumeSpawn with a background request is the
world of its single background downloadClip call. -/
theorem resumeSpawn_world (w : World) (now : Nat) (tempDir url : List Nat) (startS endS : Int)
    (quality : List Nat) (cp : ClipPath) :
    (resumeSpawn w now tempDir url startS endS quality true cp).1
      = (downloadClip w now tempDir url startS endS quality true).1 := rfl

/-- C6: a resume request finding a partial artifact (path carrying the
'.part' marker) deletes it before the fresh job starts when it fails
validateResumable, and leaves it untouched when validation passes; in both
cases exactly one worker is launched, and its argument vector carries the
resume flags --continue and --no-overwrites. -/
theorem resume_partial_artifact_handling (w : World) (now : Nat) (tempDir url : List Nat)
    (startS endS : Int) (quality : List Nat) (st : FileStat)
    (hact : lookA (getClipIdAndPath tempDir url startS endS quality).clipId w.activeClips
        = none)
    (hfile : lookA (getClipIdAndPath tempDir url startS endS quality).outputPath w.fsys
        = some st)
    (hpart : hasSubL (str (".part")) (getClipIdAndPath tempDir url startS endS quality).outputPath
        = true) :
    ((validateResumable w.fsys now
        (getClipIdAndPath tempDir url startS endS quality).outputPath).resumable = false →
      lookA (getClipIdAndPath tempDir url startS endS quality).outputPath
        (resumeRoute w now tempDir url startS endS quality true).1.fsys = none)
    ∧ ((validateResumable w.fsys now
        (getClipIdAndPath tempDir url startS endS quality).outputPath).resumable = true →
      lookA (getClipIdAndPath tempDir url startS endS quality).outputPath
        (resumeRoute w now tempDir url startS endS quality true).1.fsys = some st)
    ∧ (resumeRoute w now tempDir url startS endS quality true).1.spawned = w.spawned + 1
    ∧ (resumeRoute w now tempDir url startS endS quality true).1.spawnHistory
        = w.spawnHistory ++ [ytDlpClipArgs (qualityFormat quality) startS endS
            (getClipIdAndPath tempDir url startS endS quality).outputPath url]
    ∧ str ("--continue") ∈ ytDlpClipArgs (qualityFormat quality) startS endS
        (getClipIdAndPath tempDir url startS endS quality).outputPath url
    ∧ str ("--no-overwrites") ∈ ytDlpClipArgs (qualityFormat quality) startS endS
        (getClipIdAndPath tempDir url startS endS quality).outputPath url := by
  have hred : resumeRoute w now tempDir url startS endS quality true
      = resumeSpawn
          (if (validateResumable w.fsys now
              (getClipIdAndPath tempDir url startS endS quality).outputPath).resumable = false
           then unlinkAt w (getClipIdAndPath tempDir url startS endS quality).outputPath
           else w)
          now tempDir url startS endS quality true
          (getClipIdAndPath tempDir url startS endS quality) := by
    unfold resumeRoute resumeCore
    simp only [hact, hfile]
    rw [if_neg (by simp [hpart])]
    rfl
  by_cases hres : (validateResumable w.fsys now
      (getClipIdAndPath tempDir url startS endS quality).outputPath).resumable = false
  · rw [if_pos hres] at hred
    have hnone : lookA (getClipIdAndPath tempDir url startS endS quality).outputPath
        (unlinkAt w (getClipIdAndPath tempDir url startS endS quality).outputPath).fsys
        = none := lookA_removeA_self _ w.fsys
    have hdc := downloadClip_none
        (unlinkAt w (getClipIdAndPath tempDir url startS endS quality).outputPath)
        now tempDir url startS endS quality true hnone
    rw [hred, resumeSpawn_world]
    refine ⟨fun _ => ?_, fun hres2 => ?_, ?_, ?_, by simp [ytDlpClipArgs], by simp [ytDlpClipArgs]⟩
    · rw [hdc.1]
      exact lookA_removeA_self _ w.fsys
    · rw [hres] at hres2
      simp at hres2
    · exact hdc.2.1
    · exact hdc.2.2
  · have hkeep : ¬(now - st.mtimeMs > 86400000
        ∧ (lookA (getClipIdAndPath tempDir url startS endS quality).clipId
            w.activeClips).isNone = true
        ∧ st.size < 1024) := by
      have hres2 : (validateResumable w.fsys now
          (getClipIdAndPath tempDir url startS endS quality).outputPath).resumable = true := by
        revert hres
        cases (validateResumable w.fsys now
          (getClipIdAndPath tempDir url startS endS quality).outputPath).resumable <;> simp
      have := resumable_size_ge w.fsys now _ st hfile hres2
      rintro ⟨_, _, hsz⟩
      omega
    have hdc := downloadClip_keep w now tempDir url startS endS quality true st hfile hkeep
    rw [if_neg hres] at hred
    rw [hred, resumeSpawn_world]
    refine ⟨fun hres2 => ?_, fun _ => ?_, ?_, ?_, by simp [ytDlpClipArgs], by simp [ytDlpClipArgs]⟩
    · exact absurd hres2 hres
    · rw [hdc.1]
      exact hfile
    · exact hdc.2.1
    · exact hdc.2.2

/-- Temp directory that itself carries the partial marker, making the
partial branch of the resume route reachable. -/
def exTempDirP : List Nat := str ("tmp.part")

/-- Fingerprint of the example job under the partial-marked temp dir. -/
def exCPp : ClipPath := getClipIdAndPath exTempDirP exUrl 0 1 exQuality

/-- World with a large fresh artifact at the partial-marked path. -/
def exWpart : World := ⟨[(exCPp.outputPath, exStat)], [], [], 0, str ("Idle"), 0, []⟩

/-- Witness for C6: a valid (large, fresh) partial is kept and one worker is
spawned. -/
theorem resume_partial_artifact_handling_witness :
    lookA exCPp.clipId exWpart.activeClips = none
    ∧ lookA exCPp.outputPath exWpart.fsys = some exStat
    ∧ hasSubL (str (".part")) exCPp.outputPath = true
    ∧ (validateResumable exWpart.fsys 0 exCPp.outputPath).resumable = true
    ∧ lookA exCPp.outputPath
        (resumeRoute exWpart 0 exTempDirP exUrl 0 1 exQuality true).1.fsys = some exStat
    ∧ (resumeRoute exWpart 0 exTempDirP exUrl 0 1 exQuality true).1.spawned
        = exWpart.spawned + 1 :=
  ⟨by decide, by decide, by decide, by decide,
   (resume_partial_artifact_handling exWpart 0 exTempDirP exUrl 0 1 exQuality exStat
      (by decide) (by decide) (by decide)).2.1 (by decide),
   (resume_partial_artifact_handling exWpart 0 exTempDirP exUrl 0 1 exQuality exStat
      (by decide) (by decide) (by decide)).2.2.1⟩

/-- Newline character code. -/
def nl : List Nat := [10]

/-- JS rendering of the nullable exit code. -/
def codeStr : Option Int → List Nat
  | none => str ("null")
  | some i => intStr i

/-- JS rendering of the nullable signal name. -/
def sigStr : Option (List Nat) → List Nat
  | none => str ("null")
  | some s => s

/-- The rejection message of downloadClip (part_002 line 201):
`yt-dlp exited with code CODE signal SIGNAL`. -/
def exitMsg (code : Option Int) (signal : Option (List Nat)) : List Nat :=
  str ("yt-dlp exited with code ") ++ codeStr code ++ str (" signal ") ++ sigStr signal

/-- The resume context captured before the spawn (part_002 lines 48-53); the
float MB/minute renderings of the source are carried at byte/minute
granularity. -/
structure ResumeInfo where
  sizeBytes : Nat
  ageMinutes : Nat
  isPartial : Bool
deriving DecidableEq

/-- The `Resume info:` line payload (part_002 line 211). -/
def resumeInfoLine : Option ResumeInfo → List Nat
  | none => str ("new download")
  | some ri => natStr ri.sizeBytes ++ str (" bytes (") ++ natStr ri.ageMinutes
      ++ str ("min old)")

/-- Models `new Date().toISOString()`: an injective rendering of the clock;
the Gregorian formatting itself is elided. -/
def isoTimestamp (now : Nat) : List Nat := natStr now

/-- The header line array of the diagnostic log (part_002 lines 208-215); the
last element carries its own trailing newline exactly as in the source. The
partial-size line is rendered at byte granularity (source uses a float MB
rendering of the same number). -/
def ytDlpLogLines (code : Option Int) (signal : Option (List Nat)) (now : Nat)
    (ri : Option ResumeInfo) (psize : Nat) : List (List Nat) :=
  [str ("Exit code: ") ++ codeStr code ++ str (" signal: ") ++ sigStr signal,
   str ("Timestamp: ") ++ isoTimestamp now,
   str ("Resume info: ") ++ resumeInfoLine ri,
   str ("Partial file size: ") ++ natStr psize ++ str (" bytes"),
   str ("Can resume: ") ++ (if psize > 0 then str ("yes") else str ("no")),
   str ("--- stderr ---") ++ nl]

/-- Join with the newline separator (JS array.join). -/
def joinNL : List (List Nat) → List Nat
  | [] => []
  | [l] => l
  | l :: rest => l ++ (10 :: joinNL rest)

/-- The full diagnostic log file content: joined header plus the stderr tail
(part_002 line 216: `header + stderrBuf`). -/
def logContent (code : Option Int) (signal : Option (List Nat)) (now : Nat)
    (ri : Option ResumeInfo) (psize : Nat) (stderrBuf : List Nat) : List Nat :=
  joinNL (ytDlpLogLines code signal now ri psize) ++ stderrBuf

/-- Size of the artifact at a path, 0 when absent (part_002 line 207). -/
def partialSizeAt (w : World) (p : List Nat) : Nat :=
  match lookA p w.fsys with
  | some st => st.size
  | none => 0

/-- Settlement of the downloadClip promise. -/
inductive ClipOutcome
  | resolved (clipId outputPath filename ext : List Nat)
  | rejected (message : List Nat)
deriving DecidableEq

/-- The activeClips entry update performed by the close handler (part_002
lines 186-193). -/
def closeEntry (clip : ClipEntry) (code : Option Int) (stderrBuf : List Nat) : ClipEntry :=
  { clip with
    hasProc := false
    percent := 100
    message := if code = some 0 then str ("Complete") else str ("Error")
    ready := code == some 0
    stderrTail := stderrBuf }

/-- World with a log file written (models fs.writeFileSync of part_002
line 216). -/
def writeLog (w : World) (p content : List Nat) : World :=
  { w with logs := setA p content w.logs }

/-- World with the global progress set (part_002 line 197). -/
def setProgress (w : World) (pct : Nat) (msg : List Nat) : World :=
  { w with progressPercent := pct, progressMessage := msg }

/-- World with a clip entry replaced. -/
def setClip (w : World) (k : List Nat) (e : ClipEntry) : World :=
  { w with activeClips := setA k e w.activeClips }

/-- Embeds the `proc.on('close', ...)` handler of downloadClip (part_002
lines 179-227): update the registry entry, then either resolve (exit code 0)
or write the diagnostic log beside the output path and reject with a message
carrying exit code and signal.  The stall-timer teardown is timer
bookkeeping with no modelled state; console logging is elided; the partial
artifact is read (for its size) but never deleted. -/
def onClipClose (w : World) (now : Nat) (cp : ClipPath) (ri : Option ResumeInfo)
    (stderrBuf : List Nat) (code : Option Int) (signal : Option (List Nat)) :
    World × ClipOutcome :=
  let w1 :=
    match lookA cp.clipId w.activeClips with
    | some clip => setClip w cp.clipId (closeEntry clip code stderrBuf)
    | none => w
  if code = some 0 then
    (setProgress w1 100 (str ("Complete")),
     .resolved cp.clipId cp.outputPath cp.filename cp.ext)
  else
    (writeLog w1 (cp.outputPath ++ str (".yt-dlp.log"))
       (logContent code signal now ri (partialSizeAt w cp.outputPath) stderrBuf),
     .rejected (exitMsg code signal))

/-- Looking up the key just set returns the new value. -/
theorem lookA_setA_self {V : Type} (k : List Nat) (v : V) (l : List (List Nat × V)) :
    lookA k (setA k v l) = some v := by
  unfold setA lookA
  rw [if_pos rfl]

/-- C7 (amended): on worker exit the promise settles as follows: code 0
resolves with the output path and extension; a non-zero (or null) code
rejects with a message carrying the exit code and signal (not the stderr
tail), and writes a diagnostic log beside the output path whose header lines
carry the exit code and signal, the timestamp, the prior resume context and
the can-resume flag (partial size > 0), followed by the captured stderr
tail; the artifact file system is never touched by this handler. -/
theorem clip_close_exit_handling (w : World) (now : Nat) (cp : ClipPath)
    (ri : Option ResumeInfo) (sb : List Nat) (code : Option Int) (signal : Option (List Nat)) :
    (code = some 0 →
      (onClipClose w now cp ri sb code signal).2
        = ClipOutcome.resolved cp.clipId cp.outputPath cp.filename cp.ext)
    ∧ (code ≠ some 0 →
      (onClipClose w now cp ri sb code signal).2 = ClipOutcome.rejected (exitMsg code signal)
      ∧ lookA (cp.outputPath ++ str (".yt-dlp.log"))
          (onClipClose w now cp ri sb code signal).1.logs
        = some (logContent code signal now ri (partialSizeAt w cp.outputPath) sb))
    ∧ (str ("Exit code: ") ++ codeStr code ++ str (" signal: ") ++ sigStr signal)
        ∈ ytDlpLogLines code signal now ri (partialSizeAt w cp.outputPath)
    ∧ (str ("Timestamp: ") ++ isoTimestamp now)
        ∈ ytDlpLogLines code signal now ri (partialSizeAt w cp.outputPath)
    ∧ (str ("Resume info: ") ++ resumeInfoLine ri)
        ∈ ytDlpLogLines code signal now ri (partialSizeAt w cp.outputPath)
    ∧ (str ("Can resume: ")
        ++ (if partialSizeAt w cp.outputPath > 0 then str ("yes") else str ("no")))
        ∈ ytDlpLogLines code signal now ri (partialSizeAt w cp.outputPath)
    ∧ logContent code signal now ri (partialSizeAt w cp.outputPath) sb
        = joinNL (ytDlpLogLines code signal now ri (partialSizeAt w cp.outputPath)) ++ sb
    ∧ (onClipClose w now cp ri sb code signal).1.fsys = w.fsys := by
  refine ⟨fun hc => ?_, fun hc => ⟨?_, ?_⟩, by simp [ytDlpLogLines], by simp [ytDlpLogLines],
    by simp [ytDlpLogLines], by simp [ytDlpLogLines], rfl, ?_⟩
  · cases hl : lookA cp.clipId w.activeClips <;>
      simp [onClipClose, hl, hc]
  · cases hl : lookA cp.clipId w.activeClips <;>
      simp [onClipClose, hl, hc]
  · cases hl : lookA cp.clipId w.activeClips <;>
      simp [onClipClose, hl, hc, writeLog, lookA_setA_self]
  · cases hl : lookA cp.clipId w.activeClips <;> by_cases hc : code = some 0 <;>
      simp [onClipClose, hl, hc, writeLog, setProgress, setClip]

/-- Witness for the amended C7: a worker exiting with code 1 rejects with the
code/signal message and the log is written. -/
theorem clip_close_exit_handling_witness :
    (some 1 : Option Int) ≠ some 0
    ∧ (onClipClose exWfile 0 exCP none (str ("ERR")) (some 1) none).2
        = ClipOutcome.rejected (exitMsg (some 1) none) :=
  ⟨by decide,
   ((clip_close_exit_handling exWfile 0 exCP none (str ("ERR")) (some 1) none).2.1
      (by decide)).1⟩

/-- C7 counterexample: the rejection error does not carry the captured stderr
tail: with a non-empty stderr tail the rejected message is the fixed
code/signal sentence and the tail does not occur in it. -/
theorem clip_error_lacks_stderr_cex :
    (onClipClose exWfile 0 exCP none (str ("SOME STDERR OUTPUT")) (some 1) none).2
      = ClipOutcome.rejected (exitMsg (some 1) none)
    ∧ hasSubL (str ("SOME STDERR OUTPUT")) (exitMsg (some 1) none) = false
    ∧ str ("SOME STDERR OUTPUT") ≠ [] := by
  decide

instance {ε α : Type} [DecidableEq ε] [DecidableEq α] : DecidableEq (Except ε α) := fun x y =>
  match x, y with
  | Except.error a, Except.error b =>
    if h : a = b then isTrue (by rw [h])
    else isFalse (by intro hh; injection hh with h2; exact h h2)
  | Except.error _, Except.ok _ => isFalse (by intro hh; exact Except.noConfusion hh)
  | Except.ok _, Except.error _ => isFalse (by intro hh; exact Except.noConfusion hh)
  | Except.ok a, Except.ok b =>
    if h : a = b then isTrue (by rw [h])
    else isFalse (by intro hh; injection hh with h2; exact h h2)

/-- Recording status values (recordService.js: 'recording', 'finished',
'stopped'). -/
inductive RecStatus
  | recording
  | finished
  | stopped
deriving DecidableEq

/-- A status is terminal when it is not `recording`. -/
def isTerminal : RecStatus → Bool
  | RecStatus.recording => false
  | RecStatus.finished => true
  | RecStatus.stopped => true

/-- A Recording entry of `state.recordings` (the fields the stop path and
close handler touch; `hasProc` is the process handle's truthiness). -/
structure RecEntry where
  hasProc : Bool
  outPath : List Nat
  status : RecStatus
  sizeBytes : Nat
  maxDuration : Int
  exitCode : Option Int
  cleanupArmed : Bool
deriving DecidableEq

/-- Embeds the `proc.on('close', ...)` handler of startRecording
(recordService.js lines 103-111): status becomes 'finished' on exit code 0
and 'stopped' otherwise (any non-zero code or signal-kill, where the code is
null), exit metadata is recorded and the cleanup timer armed.  The process
handle is not nulled by this handler. -/
def recCloseEvent (e : RecEntry) (code : Option Int) : RecEntry :=
  { e with
    status := if code = some 0 then RecStatus.finished else RecStatus.stopped
    exitCode := code
    cleanupArmed := true }

/-- Embeds the guard of stopRecording (recordService.js lines 127-130):
unknown id or a recording without a live process in the 'recording' state
throws; nothing is mutated before the guard passes. -/
def stopRecordingGuard (recs : List (List Nat × RecEntry)) (id : List Nat) :
    Except (List Nat) RecEntry :=
  match lookA id recs with
  | none => Except.error (str ("Recording not found"))
  | some rec =>
    if rec.hasProc = false ∨ rec.status ≠ RecStatus.recording
    then Except.error (str ("Recording not active"))
    else Except.ok rec

/-- List-of-codes suffix test. -/
def endsWithL (n h : List Nat) : Bool := startsWithL n.reverse h.reverse

/-- Models `rec.outPath.replace(/\.ts$/i, '.mp4')` (recordService.js line 146),
restricted to the lowercase extension the service itself produces. -/
def remuxPath (p : List Nat) : List Nat :=
  if endsWithL (str (".ts")) p then p.take (p.length - 3) ++ str (".mp4") else p

/-- Embeds the tail of stopRecording after the bounded wait (recordService.js
lines 142-167): when the recorded file exists and the remux succeeds the
entry's outPath moves to the mp4 (the .ts is unlinked); remux failure is
non-fatal; then status is unconditionally assigned 'finished' and cleanup is
scheduled. -/
def stopRecordingFinish (e : RecEntry) (fileExists remuxOk : Bool) : RecEntry :=
  let e1 := if fileExists && remuxOk then { e with outPath := remuxPath e.outPath } else e
  { e1 with
    status := RecStatus.finished
    cleanupArmed := true }

/-- The explicit-stop execution path (recordService.js lines 127-168): guard,
kill, the close handler firing with the worker's exit code during the
bounded wait, then the finish step.  Returns the updated recordings map and
the status trace [on entry, after the close handler, after stopRecording
returns]. -/
def stopSequence (recs : List (List Nat × RecEntry)) (id : List Nat) (closeCode : Option Int)
    (fileExists remuxOk : Bool) :
    Except (List Nat) (List (List Nat × RecEntry) × List RecStatus) :=
  match stopRecordingGuard recs id with
  | Except.error e => Except.error e
  | Except.ok rec =>
    let r1 := recCloseEvent rec closeCode
    let r2 := stopRecordingFinish r1 fileExists remuxOk
    Except.ok (setA id r2 recs, [rec.status, r1.status, r2.status])

/-- An active example recording. -/
def exRec : RecEntry := ⟨true, str ("temp/live_rec_1_2.ts"), RecStatus.recording, 0, 0, none, false⟩

/-- Recordings map holding the active example recording under id r1. -/
def exRecs : List (List Nat × RecEntry) := [(str ("r1"), exRec)]

/-- C3 counterexample: on the explicit-stop path of an active recording
(guard passes), the close handler first assigns the terminal status
'stopped' (kill, exit code null), and stopRecording then assigns the other
terminal status 'finished': a terminal status is entered twice and changed
into another terminal status. -/
theorem rec_terminal_status_reassigned_cex :
    stopRecordingGuard exRecs (str ("r1")) = Except.ok exRec
    ∧ isTerminal (recCloseEvent exRec none).status = true
    ∧ isTerminal (stopRecordingFinish (recCloseEvent exRec none) true true).status = true
    ∧ (recCloseEvent exRec none).status
        ≠ (stopRecordingFinish (recCloseEvent exRec none) true true).status := by
  decide

/-- C3 (amended): the status never returns to 'recording': the close handler
assigns exactly the terminal status 'finished' (code 0) or 'stopped'
(otherwise), and once a recording is terminal a further stop call errors in
the guard; however the explicit-stop path assigns a terminal status twice —
stopRecordingFinish unconditionally overwrites the close handler's status
with 'finished' (counterexample above). -/
theorem rec_status_transitions_amended :
    (∀ (e : RecEntry) (code : Option Int),
      isTerminal (recCloseEvent e code).status = true
      ∧ (recCloseEvent e code).status
          = (if code = some 0 then RecStatus.finished else RecStatus.stopped))
    ∧ (∀ (e : RecEntry) (f r : Bool), (stopRecordingFinish e f r).status = RecStatus.finished)
    ∧ (∀ (recs : List (List Nat × RecEntry)) (id : List Nat) (e : RecEntry),
        lookA id recs = some e → isTerminal e.status = true →
        stopRecordingGuard recs id = Except.error (str ("Recording not active")))
    ∧ (∀ (e : RecEntry) (code : Option Int) (f r : Bool),
        e.status = RecStatus.recording →
        (recCloseEvent e code).status ≠ RecStatus.recording
        ∧ (stopRecordingFinish (recCloseEvent e code) f r).status ≠ RecStatus.recording) := by
  refine ⟨?_, ?_, ?_, ?_⟩
  · intro e code
    by_cases hc : code = some 0 <;> simp [recCloseEvent, isTerminal, hc]
  · intro e f r
    rfl
  · intro recs id e hl ht
    unfold stopRecordingGuard
    rw [hl]
    have hne : e.status ≠ RecStatus.recording := by
      intro hh
      rw [hh] at ht
      simp [isTerminal] at ht
    dsimp only
    rw [if_pos (Or.inr hne)]
  · intro e code f r _
    constructor
    · by_cases hc : code = some 0 <;> simp [recCloseEvent, hc]
    · intro hh
      cases hh

/-- Witness for the amended C3 at concrete recordings. -/
theorem rec_status_transitions_amended_witness :
    lookA (str ("r1")) [(str ("r1"), recCloseEvent exRec none)] = some (recCloseEvent exRec none)
    ∧ isTerminal (recCloseEvent exRec none).status = true
    ∧ (stopRecordingFinish exRec true true).status = RecStatus.finished
    ∧ stopRecordingGuard [(str ("r1"), recCloseEvent exRec none)] (str ("r1"))
        = Except.error (str ("Recording not active")) :=
  ⟨by decide,
   (rec_status_transitions_amended.1 exRec none).1,
   rec_status_transitions_amended.2.1 exRec true true,
   rec_status_transitions_amended.2.2.1 [(str ("r1"), recCloseEvent exRec none)] (str ("r1"))
     (recCloseEvent exRec none) (by decide) (by decide)⟩

/-- C9 counterexample: a first stop on an active recording does not leave the
status at 'stopped': the stop path traverses recording → stopped (close
handler) → finished (stopRecording's final assignment), so the final status
is 'finished', not 'stopped', and the transition happened twice. -/
theorem rec_stop_final_status_cex :
    exRec.status = RecStatus.recording
    ∧ exRec.hasProc = true
    ∧ stopSequence exRecs (str ("r1")) none true true
        = Except.ok (setA (str ("r1"))
            (stopRecordingFinish (recCloseEvent exRec none) true true) exRecs,
            [RecStatus.recording, RecStatus.stopped, RecStatus.finished])
    ∧ (stopRecordingFinish (recCloseEvent exRec none) true true).status ≠ RecStatus.stopped := by
  decide

/-- C9 (amended): stop on an unknown id or on a recording no longer in the
'recording' state raises a definitive error from the guard, before any
mutation — never a silent no-op; a first stop on an active recording (killed
worker exiting non-zero/null) drives the status through 'stopped' into the
final status 'finished', not a single transition to 'stopped' as claimed
(counterexample above). -/
theorem rec_stop_errors_amended :
    (∀ (recs : List (List Nat × RecEntry)) (id : List Nat) (closeCode : Option Int)
        (f r : Bool), lookA id recs = none →
      stopSequence recs id closeCode f r = Except.error (str ("Recording not found")))
    ∧ (∀ (recs : List (List Nat × RecEntry)) (id : List Nat) (e : RecEntry)
        (closeCode : Option Int) (f r : Bool),
        lookA id recs = some e → isTerminal e.status = true →
      stopSequence recs id closeCode f r = Except.error (str ("Recording not active")))
    ∧ (∀ (recs : List (List Nat × RecEntry)) (id : List Nat) (e : RecEntry)
        (closeCode : Option Int) (f r : Bool),
        lookA id recs = some e → e.hasProc = true → e.status = RecStatus.recording →
        closeCode ≠ some 0 →
      stopSequence recs id closeCode f r
        = Except.ok (setA id (stopRecordingFinish (recCloseEvent e closeCode) f r) recs,
            [RecStatus.recording, RecStatus.stopped, RecStatus.finished])) := by
  refine ⟨?_, ?_, ?_⟩
  · intro recs id closeCode f r hl
    unfold stopSequence stopRecordingGuard
    rw [hl]
  · intro recs id e closeCode f r hl ht
    unfold stopSequence stopRecordingGuard
    rw [hl]
    have hne : e.status ≠ RecStatus.recording := by
      intro hh
      rw [hh] at ht
      simp [isTerminal] at ht
    dsimp only
    rw [if_pos (Or.inr hne)]
  · intro recs id e closeCode f r hl hp hrec hcode
    unfold stopSequence stopRecordingGuard
    rw [hl]
    dsimp only
    rw [if_neg (by
      rintro (h | h)
      · rw [hp] at h
        simp at h
      · exact h hrec)]
    dsimp only
    rw [hrec]
    have h1 : (recCloseEvent e closeCode).status = RecStatus.stopped := by
      simp [recCloseEvent, hcode]
    rw [h1]
    rfl

/-- Witness for the amended C9: unknown id errors; a full stop on the active
example recording produces the recording → stopped → finished trace. -/
theorem rec_stop_errors_amended_witness :
    lookA (str ("rX")) exRecs = none
    ∧ stopSequence exRecs (str ("rX")) none true true
        = Except.error (str ("Recording not found"))
    ∧ stopSequence exRecs (str ("r1")) none true true
        = Except.ok (setA (str ("r1"))
            (stopRecordingFinish (recCloseEvent exRec none) true true) exRecs,
            [RecStatus.recording, RecStatus.stopped, RecStatus.finished]) :=
  ⟨by decide,
   rec_stop_errors_amended.1 exRecs (str ("rX")) none true true (by decide),
   rec_stop_errors_amended.2.2 exRecs (str ("r1")) exRec none true true (by decide) (by decide)
     (by decide) (by decide)⟩
